import Mathlib

set_option maxRecDepth 4096

/-
Verification of the uhid device core (src/lib.rs): the event codec, the
Create2 request layout, and the create/destroy lifecycle of Device.

Bytes are modelled as natural numbers below 256 in lists; the channel is
modelled as the log of successful writes; the success of each underlying
write call is an explicit Boolean argument.
-/

namespace Uhid

/-- Maximum HID report descriptor size, the constant HID_MAX_DESCRIPTOR_SIZE. -/
def HID_MAX_DESCRIPTOR_SIZE : Nat := 4096

/-- Bus transport identifiers, in source declaration order. -/
inductive Bus where
  | PCI
  | ISAPNP
  | USB
  | HIL
  | BLUETOOTH
  | VIRTUAL
deriving DecidableEq

/-- Value of the Rust cast expression (Bus as u16): the zero-based declaration
position of the variant. -/
def Bus.wireCode : Bus → Nat
  | .PCI => 0
  | .ISAPNP => 1
  | .USB => 2
  | .HIL => 3
  | .BLUETOOTH => 4
  | .VIRTUAL => 5

/-- Event discriminants of the uhid protocol, in source declaration order.
The two leading underscores and the Loegacy spelling are kept from the source. -/
inductive EventType where
  | __LegacyCreate
  | Destroy
  | Start
  | Stop
  | Open
  | Close
  | Output
  | __LoegacyOutputEv
  | __LegacyInput
  | GetReport
  | GetReportReply
  | Create2
  | Input2
  | SetReport
  | SetReportReply
deriving DecidableEq, Fintype

/-- Value of the Rust cast expression (event_type as u32): the zero-based
declaration position of the variant. -/
def EventType.wireCode : EventType → Nat
  | .__LegacyCreate => 0
  | .Destroy => 1
  | .Start => 2
  | .Stop => 3
  | .Open => 4
  | .Close => 5
  | .Output => 6
  | .__LoegacyOutputEv => 7
  | .__LegacyInput => 8
  | .GetReport => 9
  | .GetReportReply => 10
  | .Create2 => 11
  | .Input2 => 12
  | .SetReport => 13
  | .SetReportReply => 14

/-- The EventType variants listed in the fixed enumeration order of the
protocol (legacy-create, destroy, start, stop, open, close, output,
legacy-output, legacy-input, get-report, get-report-reply, create2, input2,
set-report, set-report-reply). -/
def eventTypeOrder : List EventType :=
  [.__LegacyCreate, .Destroy, .Start, .Stop, .Open, .Close, .Output,
   .__LoegacyOutputEv, .__LegacyInput, .GetReport, .GetReportReply,
   .Create2, .Input2, .SetReport, .SetReportReply]

/-- Little-endian byte list of a 16-bit unsigned value, as bincode lays out a u16. -/
def u16le (n : Nat) : List Nat :=
  [n % 256, n / 256 % 256]

/-- Little-endian byte list of a 32-bit unsigned value, as bincode lays out a u32. -/
def u32le (n : Nat) : List Nat :=
  [n % 256, n / 256 % 256, n / 65536 % 256, n / 16777216 % 256]

/-- The Create2Req record of the source. The three fixed byte arrays and the
rd_data buffer are byte lists whose lengths are fixed by construction. -/
structure Create2Req where
  name : List Nat
  phys : List Nat
  uniq : List Nat
  rd_size : Nat
  bus : Nat
  vendor : Nat
  product : Nat
  version : Nat
  country : Nat
  rd_data : List Nat
deriving DecidableEq

/-- Byte layout of Create2Req as bincode with the BigArray helper serializes
it: the fixed byte arrays verbatim, the u16 and u32 fields little-endian, in
field order, with no length prefixes and no padding. -/
def Create2Req.serialize (r : Create2Req) : List Nat :=
  r.name ++ r.phys ++ r.uniq ++ u16le r.rd_size ++ u16le r.bus ++
  u32le r.vendor ++ u32le r.product ++ u32le r.version ++ u32le r.country ++
  r.rd_data

/-- Overwrite the first xs.length entries of buf with xs and keep the rest:
models the clone_from_slice call into buf[..xs.length]. -/
def overwriteAt (buf xs : List Nat) : List Nat :=
  xs ++ buf.drop xs.length

/-- Errors returned by create and destroy. The source formats them as strings;
each constructor records the numeric values interpolated into the message. The
invalidDescriptor message interpolates name.len() and HID_MAX_DESCRIPTOR_SIZE,
exactly as the source does. -/
inductive UhidError where
  | alreadyCreated
  | invalidName (actual max : Nat)
  | invalidDescriptor (reported max : Nat)
  | writeFailed
deriving DecidableEq

/-- Device state: the created flag together with the channel, modelled as the
log of the byte vectors successfully written to it. -/
structure Device where
  created : Bool
  writes : List (List Nat)
deriving DecidableEq

/-- Event framing from Device.event in the source: the 4-byte little-endian
discriminant of the event type, then the payload verbatim when present. -/
def Device.event (event_type : EventType) (data : Option (List Nat)) : List Nat :=
  u32le event_type.wireCode ++
    (match data with
     | some data_vec => data_vec
     | none => [])

/-- The Create2Req value built by Device.create: name, phys, uniq and rd_data
zero-initialized, then the name bytes and descriptor bytes copied to the start
of their buffers; rd_size is the descriptor length cast to u16, bus defaults
to the USB code, version and country are 0. -/
def buildCreate2Req (vid pid : Nat) (name_bytes rdesc : List Nat)
    (bus : Option Nat) : Create2Req where
  name := overwriteAt (List.replicate 128 0) name_bytes
  phys := List.replicate 64 0
  uniq := List.replicate 64 0
  rd_size := rdesc.length % 65536
  bus := bus.getD Bus.USB.wireCode
  vendor := vid
  product := pid
  version := 0
  country := 0
  rd_data := overwriteAt (List.replicate HID_MAX_DESCRIPTOR_SIZE 0) rdesc

/-- Shallow embedding of Device.create: the guard on the created flag, the
optimistic flag set, the two length validations (the descriptor check is
against 128 in the source), request construction, framing, and the single
channel write, whose success is the writeOk argument. -/
def Device.create (d : Device) (vid pid : Nat) (name : List Nat)
    (rdesc : List Nat) (bus : Option Nat) (writeOk : Bool) :
    Except UhidError Unit × Device :=
  if d.created then
    (.error .alreadyCreated, d)
  else
    let d := { d with created := true }
    let name_bytes := name
    if name_bytes.length > 128 then
      (.error (.invalidName name_bytes.length 128), d)
    else if rdesc.length > 128 then
      (.error (.invalidDescriptor name.length HID_MAX_DESCRIPTOR_SIZE), d)
    else
      let create_req := buildCreate2Req vid pid name_bytes rdesc bus
      let req_vec := Device.event .Create2 (some create_req.serialize)
      if writeOk then
        (.ok (), { d with writes := d.writes ++ [req_vec] })
      else
        (.error .writeFailed, d)

/-- Shallow embedding of Device.destroy: unconditionally clears the created
flag, then writes the Destroy event with no payload. -/
def Device.destroy (d : Device) (writeOk : Bool) :
    Except UhidError Unit × Device :=
  let d := { d with created := false }
  if writeOk then
    (.ok (), { d with writes := d.writes ++ [Device.event .Destroy none] })
  else
    (.error .writeFailed, d)

/-! Branch characterisations of Device.create, shared by the claim theorems. -/

theorem create_already_eq (d : Device) (vid pid : Nat) (name rdesc : List Nat)
    (bus : Option Nat) (writeOk : Bool) (h : d.created = true) :
    d.create vid pid name rdesc bus writeOk = (.error .alreadyCreated, d) := by
  simp [Device.create, h]

theorem create_bad_name_eq (d : Device) (vid pid : Nat) (name rdesc : List Nat)
    (bus : Option Nat) (writeOk : Bool) (h : d.created = false)
    (hn : 128 < name.length) :
    d.create vid pid name rdesc bus writeOk =
      (.error (.invalidName name.length 128), { d with created := true }) := by
  simp [Device.create, h, hn]

theorem create_bad_desc_eq (d : Device) (vid pid : Nat) (name rdesc : List Nat)
    (bus : Option Nat) (writeOk : Bool) (h : d.created = false)
    (hn : name.length ≤ 128) (hr : 128 < rdesc.length) :
    d.create vid pid name rdesc bus writeOk =
      (.error (.invalidDescriptor name.length HID_MAX_DESCRIPTOR_SIZE),
       { d with created := true }) := by
  simp [Device.create, h, hr, Nat.not_lt.mpr hn]

theorem create_ok_eq (d : Device) (vid pid : Nat) (name rdesc : List Nat)
    (bus : Option Nat) (h : d.created = false)
    (hn : name.length ≤ 128) (hr : rdesc.length ≤ 128) :
    d.create vid pid name rdesc bus true =
      (.ok (), { created := true,
                 writes := d.writes ++
                   [Device.event .Create2
                     (some (buildCreate2Req vid pid name rdesc bus).serialize)] }) := by
  simp [Device.create, h, Nat.not_lt.mpr hn, Nat.not_lt.mpr hr]

theorem create_write_fail_eq (d : Device) (vid pid : Nat) (name rdesc : List Nat)
    (bus : Option Nat) (h : d.created = false)
    (hn : name.length ≤ 128) (hr : rdesc.length ≤ 128) :
    d.create vid pid name rdesc bus false =
      (.error .writeFailed, { d with created := true }) := by
  simp [Device.create, h, Nat.not_lt.mpr hn, Nat.not_lt.mpr hr]

theorem create_ok_inv (d : Device) (vid pid : Nat) (name rdesc : List Nat)
    (bus : Option Nat) (writeOk : Bool)
    (hok : (d.create vid pid name rdesc bus writeOk).1 = .ok ()) :
    d.created = false ∧ name.length ≤ 128 ∧ rdesc.length ≤ 128 ∧
      writeOk = true := by
  by_cases h : d.created = true
  · rw [create_already_eq d vid pid name rdesc bus writeOk h] at hok
    simp at hok
  · rw [Bool.not_eq_true] at h
    by_cases hn : 128 < name.length
    · rw [create_bad_name_eq d vid pid name rdesc bus writeOk h hn] at hok
      simp at hok
    · rw [Nat.not_lt] at hn
      by_cases hr : 128 < rdesc.length
      · rw [create_bad_desc_eq d vid pid name rdesc bus writeOk h hn hr] at hok
        simp at hok
      · rw [Nat.not_lt] at hr
        cases writeOk with
        | false =>
          rw [create_write_fail_eq d vid pid name rdesc bus h hn hr] at hok
          simp at hok
        | true => exact ⟨h, hn, hr, rfl⟩

theorem overwriteAt_replicate (n : Nat) (xs : List Nat) :
    overwriteAt (List.replicate n 0) xs = xs ++ List.replicate (n - xs.length) 0 := by
  rw [overwriteAt, List.drop_replicate]

theorem overwriteAt_length (n : Nat) (xs : List Nat) (h : xs.length ≤ n) :
    (overwriteAt (List.replicate n 0) xs).length = n := by
  rw [overwriteAt_replicate]
  simp
  omega

theorem serialize_length (vid pid : Nat) (name rdesc : List Nat)
    (bus : Option Nat) (hn : name.length ≤ 128)
    (hr : rdesc.length ≤ HID_MAX_DESCRIPTOR_SIZE) :
    ((buildCreate2Req vid pid name rdesc bus).serialize).length = 4372 := by
  simp only [Create2Req.serialize, buildCreate2Req, List.length_append,
    overwriteAt_length 128 name hn,
    overwriteAt_length HID_MAX_DESCRIPTOR_SIZE rdesc hr,
    List.length_replicate, u16le, u32le, List.length_cons, List.length_nil,
    HID_MAX_DESCRIPTOR_SIZE]
  rw [overwriteAt_length 4096 rdesc hr]

/-! Claim theorems. -/

/-- C1: at the concrete input of a 129-byte report descriptor, a 1-byte name
and an uninitialized device, create does not succeed: it returns the
invalidDescriptor error, writing nothing, even though 129 is at most
HID_MAX_DESCRIPTOR_SIZE. The source checks the descriptor length against 128
while its own error message names 4096 as the maximum. -/
theorem create_rejects_129_byte_descriptor :
    ((⟨false, []⟩ : Device).create 1 1 [97] (List.replicate 129 0) none true).1 =
      .error (.invalidDescriptor 1 4096) ∧
    (((⟨false, []⟩ : Device).create 1 1 [97]
        (List.replicate 129 0) none true).2).writes = ([] : List (List Nat)) ∧
    129 ≤ HID_MAX_DESCRIPTOR_SIZE := by
  refine ⟨rfl, rfl, by decide⟩

/-- C2: create on a Device in the created state fails with the AlreadyCreated
error and changes nothing; in particular, after a successful create a second
create with any arguments fails with AlreadyCreated. -/
theorem create_guard_already_created (d d0 : Device) (vid pid v1 p1 : Nat)
    (name rdesc n1 r1 : List Nat) (bus b1 : Option Nat) (writeOk w1 : Bool)
    (h : d.created = true)
    (hok : (d0.create v1 p1 n1 r1 b1 w1).1 = .ok ()) :
    (d.create vid pid name rdesc bus writeOk).1 = .error .alreadyCreated ∧
    (d.create vid pid name rdesc bus writeOk).2 = d ∧
    (((d0.create v1 p1 n1 r1 b1 w1).2).create vid pid name rdesc bus writeOk).1 =
      .error .alreadyCreated := by
  obtain ⟨h0, hn, hr, hw⟩ := create_ok_inv d0 v1 p1 n1 r1 b1 w1 hok
  subst hw
  refine ⟨?_, ?_, ?_⟩
  · rw [create_already_eq d vid pid name rdesc bus writeOk h]
  · rw [create_already_eq d vid pid name rdesc bus writeOk h]
  · have h2 : ((d0.create v1 p1 n1 r1 b1 true).2).created = true := by
      rw [create_ok_eq d0 v1 p1 n1 r1 b1 h0 hn hr]
    rw [create_already_eq _ vid pid name rdesc bus writeOk h2]

/-- Witness for create_guard_already_created at concrete inputs. -/
theorem create_guard_already_created_witness :
    (⟨true, []⟩ : Device).created = true ∧
    ((⟨false, []⟩ : Device).create 3 4 [97] [5] none true).1 = .ok () ∧
    ((⟨true, []⟩ : Device).create 1 2 [98] [6] none true).1 =
      .error .alreadyCreated ∧
    ((⟨true, []⟩ : Device).create 1 2 [98] [6] none true).2 = ⟨true, []⟩ ∧
    ((((⟨false, []⟩ : Device).create 3 4 [97] [5] none true).2).create
        1 2 [98] [6] none true).1 = .error .alreadyCreated := by
  have h := create_guard_already_created ⟨true, []⟩ ⟨false, []⟩ 1 2 3 4
    [98] [6] [97] [5] none none true true rfl rfl
  exact ⟨rfl, rfl, h.1, h.2.1, h.2.2⟩

/-- C3: a create call on an uninitialized Device that fails validation returns
the validation error but leaves the created flag set to true, so a later
create with valid arguments fails with AlreadyCreated although no Create2
event was ever written. -/
theorem create_validation_failure_sets_created (d : Device)
    (vid pid v2 p2 : Nat) (name rdesc n2 r2 : List Nat) (bus b2 : Option Nat)
    (writeOk w2 : Bool)
    (h : d.created = false)
    (hbad : 128 < name.length ∨ 128 < rdesc.length) :
    ((128 < name.length →
       (d.create vid pid name rdesc bus writeOk).1 =
         .error (.invalidName name.length 128)) ∧
     (name.length ≤ 128 → 128 < rdesc.length →
       (d.create vid pid name rdesc bus writeOk).1 =
         .error (.invalidDescriptor name.length HID_MAX_DESCRIPTOR_SIZE))) ∧
    ((d.create vid pid name rdesc bus writeOk).2).created = true ∧
    ((d.create vid pid name rdesc bus writeOk).2).writes = d.writes ∧
    (n2.length ≤ 128 → r2.length ≤ 128 →
      (((d.create vid pid name rdesc bus writeOk).2).create
          v2 p2 n2 r2 b2 w2).1 = .error .alreadyCreated) := by
  by_cases hn : 128 < name.length
  · rw [create_bad_name_eq d vid pid name rdesc bus writeOk h hn]
    refine ⟨⟨fun _ => rfl, fun h2 _ => absurd hn (Nat.not_lt.mpr h2)⟩,
      rfl, rfl, fun _ _ => ?_⟩
    rw [create_already_eq _ v2 p2 n2 r2 b2 w2 rfl]
  · rw [Nat.not_lt] at hn
    have hr : 128 < rdesc.length := hbad.resolve_left (Nat.not_lt.mpr hn)
    rw [create_bad_desc_eq d vid pid name rdesc bus writeOk h hn hr]
    refine ⟨⟨fun h2 => absurd h2 (Nat.not_lt.mpr hn), fun _ _ => rfl⟩,
      rfl, rfl, fun _ _ => ?_⟩
    rw [create_already_eq _ v2 p2 n2 r2 b2 w2 rfl]

/-- Witness for create_validation_failure_sets_created: a 129-byte name. -/
theorem create_validation_failure_sets_created_witness :
    (⟨false, []⟩ : Device).created = false ∧
    (128 < (List.replicate 129 97).length ∨ 128 < ([5] : List Nat).length) ∧
    ((⟨false, []⟩ : Device).create 1 2 (List.replicate 129 97)
        [5] none true).1 = .error (.invalidName 129 128) ∧
    (((⟨false, []⟩ : Device).create 1 2 (List.replicate 129 97)
        [5] none true).2).created = true ∧
    (((⟨false, []⟩ : Device).create 1 2 (List.replicate 129 97)
        [5] none true).2).writes = ([] : List (List Nat)) ∧
    ((((⟨false, []⟩ : Device).create 1 2 (List.replicate 129 97)
        [5] none true).2).create 3 4 [97] [6] none true).1 =
      .error .alreadyCreated := by
  have h := create_validation_failure_sets_created ⟨false, []⟩ 1 2 3 4
    (List.replicate 129 97) [5] [97] [6] none none true true rfl
    (Or.inl (by simp))
  exact ⟨rfl, Or.inl (by simp), h.1.1 (by simp), h.2.1, h.2.2.1,
    h.2.2.2 (by decide) (by decide)⟩

/-- C4: for a name longer than 128 bytes, create on an uninitialized device
fails with the invalidName error carrying the actual and maximum lengths and
performs no write. -/
theorem create_rejects_long_name (d : Device) (vid pid : Nat)
    (name rdesc : List Nat) (bus : Option Nat) (writeOk : Bool)
    (h : d.created = false) (hn : 128 < name.length) :
    (d.create vid pid name rdesc bus writeOk).1 =
      .error (.invalidName name.length 128) ∧
    ((d.create vid pid name rdesc bus writeOk).2).writes = d.writes := by
  rw [create_bad_name_eq d vid pid name rdesc bus writeOk h hn]
  exact ⟨rfl, rfl⟩

/-- Witness for create_rejects_long_name: a 130-byte name. -/
theorem create_rejects_long_name_witness :
    (⟨false, []⟩ : Device).created = false ∧
    128 < (List.replicate 130 98).length ∧
    ((⟨false, []⟩ : Device).create 7 8 (List.replicate 130 98)
        [9] none true).1 = .error (.invalidName 130 128) ∧
    (((⟨false, []⟩ : Device).create 7 8 (List.replicate 130 98)
        [9] none true).2).writes = ([] : List (List Nat)) := by
  have h := create_rejects_long_name ⟨false, []⟩ 7 8
    (List.replicate 130 98) [9] none true rfl (by simp)
  exact ⟨rfl, by simp, h.1, h.2⟩

/-- C5: on every successful create the channel receives exactly the framed
Create2 request, whose fields are: the name bytes at the start of the
128-byte buffer with zero padding, all-zero phys and uniq, rd_size the actual
descriptor length, bus the given bus or the USB code when none is given,
vendor and product the given ids, version and country zero, and the
descriptor bytes at offset 0 of the 4096-byte rd_data buffer with zero
padding. -/
theorem create_success_payload (d : Device) (vid pid : Nat)
    (name rdesc : List Nat) (bus : Option Nat) (writeOk : Bool)
    (hok : (d.create vid pid name rdesc bus writeOk).1 = .ok ()) :
    ((d.create vid pid name rdesc bus writeOk).2).writes =
      d.writes ++ [Device.event .Create2
        (some (buildCreate2Req vid pid name rdesc bus).serialize)] ∧
    (buildCreate2Req vid pid name rdesc bus).name =
      name ++ List.replicate (128 - name.length) 0 ∧
    (buildCreate2Req vid pid name rdesc bus).phys = List.replicate 64 0 ∧
    (buildCreate2Req vid pid name rdesc bus).uniq = List.replicate 64 0 ∧
    (buildCreate2Req vid pid name rdesc bus).rd_size = rdesc.length ∧
    (buildCreate2Req vid pid name rdesc bus).bus = bus.getD Bus.USB.wireCode ∧
    (buildCreate2Req vid pid name rdesc bus).vendor = vid ∧
    (buildCreate2Req vid pid name rdesc bus).product = pid ∧
    (buildCreate2Req vid pid name rdesc bus).version = 0 ∧
    (buildCreate2Req vid pid name rdesc bus).country = 0 ∧
    (buildCreate2Req vid pid name rdesc bus).rd_data =
      rdesc ++ List.replicate (HID_MAX_DESCRIPTOR_SIZE - rdesc.length) 0 := by
  obtain ⟨h0, hn, hr, hw⟩ := create_ok_inv d vid pid name rdesc bus writeOk hok
  subst hw
  rw [create_ok_eq d vid pid name rdesc bus h0 hn hr]
  refine ⟨rfl, overwriteAt_replicate 128 name, rfl, rfl, ?_, rfl, rfl, rfl,
    rfl, rfl, overwriteAt_replicate HID_MAX_DESCRIPTOR_SIZE rdesc⟩
  show rdesc.length % 65536 = rdesc.length
  exact Nat.mod_eq_of_lt (by omega)

/-- Witness for create_success_payload at concrete inputs with a given bus. -/
theorem create_success_payload_witness :
    ((⟨false, []⟩ : Device).create 17 18 [104, 105] [1, 2, 3]
        (some 5) true).1 = .ok () ∧
    (buildCreate2Req 17 18 [104, 105] [1, 2, 3] (some 5)).name =
      [104, 105] ++ List.replicate 126 0 ∧
    (buildCreate2Req 17 18 [104, 105] [1, 2, 3] (some 5)).rd_size = 3 ∧
    (buildCreate2Req 17 18 [104, 105] [1, 2, 3] (some 5)).bus = 5 ∧
    (buildCreate2Req 17 18 [104, 105] [1, 2, 3] (some 5)).rd_data =
      [1, 2, 3] ++ List.replicate 4093 0 := by
  have h := create_success_payload ⟨false, []⟩ 17 18 [104, 105] [1, 2, 3]
    (some 5) true rfl
  exact ⟨rfl, h.2.1, h.2.2.2.2.1, h.2.2.2.2.2.1, h.2.2.2.2.2.2.2.2.2.2⟩

/-- C6: event framing produces the 4-byte discriminant followed by the
payload verbatim when one is present, and the 4-byte discriminant alone
(4 bytes in total) when none is present. -/
theorem event_framing (t : EventType) (p : List Nat) :
    Device.event t (some p) = u32le t.wireCode ++ p ∧
    Device.event t none = u32le t.wireCode ∧
    (Device.event t none).length = 4 ∧
    (u32le t.wireCode).length = 4 := by
  refine ⟨rfl, by simp [Device.event], by simp [Device.event, u32le], rfl⟩

/-- C7: the wire discriminant of every EventType variant is its zero-based
position in the fixed enumeration order; in particular Destroy encodes as 1
and Create2 as 11. -/
theorem eventType_wire_codes :
    eventTypeOrder.map EventType.wireCode =
      [0, 1, 2, 3, 4, 5, 6, 7, 8, 9, 10, 11, 12, 13, 14] ∧
    (∀ t : EventType, t ∈ eventTypeOrder) ∧
    eventTypeOrder.Nodup ∧
    EventType.Destroy.wireCode = 1 ∧
    EventType.Create2.wireCode = 11 := by
  decide

/-- C8: destroy is callable in any state without a precondition check, always
clears the created flag, and on a successful write appends exactly the 4-byte
Destroy event (discriminant 1, zero-length payload); on a failed write it
reports the write failure. -/
theorem destroy_from_any_state (d : Device) (writeOk : Bool) :
    ((d.destroy writeOk).2).created = false ∧
    (d.destroy true).1 = .ok () ∧
    ((d.destroy true).2).writes = d.writes ++ [Device.event .Destroy none] ∧
    Device.event .Destroy none = [1, 0, 0, 0] ∧
    (Device.event .Destroy none).length = 4 ∧
    (d.destroy false).1 = .error .writeFailed ∧
    ((d.destroy false).2).writes = d.writes := by
  cases writeOk <;>
    simp [Device.destroy, Device.event, u32le, EventType.wireCode]

/-- C9: every successful create writes exactly one byte vector to the
channel, the framed Create2 event, of total length 4 + 4372 = 4376 bytes:
the 4-byte discriminant followed by the 4372-byte payload with no length
prefixes and no inter-field padding. -/
theorem create_success_write_length (d : Device) (vid pid : Nat)
    (name rdesc : List Nat) (bus : Option Nat) (writeOk : Bool)
    (hok : (d.create vid pid name rdesc bus writeOk).1 = .ok ()) :
    ((d.create vid pid name rdesc bus writeOk).2).writes =
      d.writes ++ [Device.event .Create2
        (some (buildCreate2Req vid pid name rdesc bus).serialize)] ∧
    ((buildCreate2Req vid pid name rdesc bus).serialize).length = 4372 ∧
    (Device.event .Create2
      (some (buildCreate2Req vid pid name rdesc bus).serialize)).length =
        4376 := by
  obtain ⟨h0, hn, hr, hw⟩ := create_ok_inv d vid pid name rdesc bus writeOk hok
  subst hw
  have hs := serialize_length vid pid name rdesc bus hn
    (Nat.le_trans hr (by decide))
  rw [create_ok_eq d vid pid name rdesc bus h0 hn hr]
  refine ⟨rfl, hs, ?_⟩
  simp [Device.event, u32le, hs]

/-- Witness for create_success_write_length: vendor id 0x1234, product id
0x4321, the name "test device" as bytes, a 2-byte descriptor. -/
theorem create_success_write_length_witness :
    ((⟨false, []⟩ : Device).create 4660 17185
        [116, 101, 115, 116, 32, 100, 101, 118, 105, 99, 101]
        [5, 1] none true).1 = .ok () ∧
    ((buildCreate2Req 4660 17185
        [116, 101, 115, 116, 32, 100, 101, 118, 105, 99, 101]
        [5, 1] none).serialize).length = 4372 ∧
    (Device.event .Create2 (some (buildCreate2Req 4660 17185
        [116, 101, 115, 116, 32, 100, 101, 118, 105, 99, 101]
        [5, 1] none).serialize)).length = 4376 := by
  have h := create_success_write_length ⟨false, []⟩ 4660 17185
    [116, 101, 115, 116, 32, 100, 101, 118, 105, 99, 101] [5, 1] none true rfl
  exact ⟨rfl, h.2.1, h.2.2⟩

/-- C10: create marks the device created before performing the write, so when
the write fails after validation has passed, create returns the write-failure
error and the created flag remains true. -/
theorem create_write_failure_leaves_created (d : Device) (vid pid : Nat)
    (name rdesc : List Nat) (bus : Option Nat)
    (h : d.created = false) (hn : name.length ≤ 128)
    (hr : rdesc.length ≤ 128) :
    (d.create vid pid name rdesc bus false).1 = .error .writeFailed ∧
    ((d.create vid pid name rdesc bus false).2).created = true := by
  rw [create_write_fail_eq d vid pid name rdesc bus h hn hr]
  exact ⟨rfl, rfl⟩

/-- Witness for create_write_failure_leaves_created at concrete inputs. -/
theorem create_write_failure_leaves_created_witness :
    (⟨false, []⟩ : Device).created = false ∧
    ([99] : List Nat).length ≤ 128 ∧
    ([7, 8] : List Nat).length ≤ 128 ∧
    ((⟨false, []⟩ : Device).create 11 12 [99] [7, 8] none false).1 =
      .error .writeFailed ∧
    (((⟨false, []⟩ : Device).create 11 12 [99] [7, 8] none false).2).created =
      true := by
  have h := create_write_failure_leaves_created ⟨false, []⟩ 11 12 [99] [7, 8]
    none rfl (by decide) (by decide)
  exact ⟨rfl, by decide, by decide, h.1, h.2⟩

end Uhid
